import Mathlib

/-!
Verification development for the projectile-game repository.

The repository ships a browser frontend (`frontend/app.js`) on top of a
Flask backend that performs the trajectory integration and scoring.  The
backend source is not part of the checked-in sources, so the core
integrator and evaluator are modelled here from the specification, while
the session layer (`shoot`, `resetGame`, `newTarget` in `app.js`) is
embedded directly from the JavaScript source.

Numbers are modelled as rationals.  The mathematical primitives the spec
delegates to the host math library (cosine/sine of a degree angle, square
root, arctangent, and the constant pi used for the cross-sectional area)
are collected in a `Prim` structure and passed as a parameter: the spec
fixes none of their implementations, only how the integrator uses them.
-/

namespace Projectile

/-- Modelled from the spec: the math-library primitives used by the core
(the backend source is not under version control here).  `cosDeg`/`sinDeg`
take angles in degrees; `sqrtQ` models the square root used for speeds;
`atan2Deg` models the flight-path-angle computation; `piA` is the constant
used for the cross-sectional area `A = pi * radius ^ 2`. -/
structure Prim where
  cosDeg : ℚ → ℚ
  sinDeg : ℚ → ℚ
  sqrtQ : ℚ → ℚ
  atan2Deg : ℚ → ℚ → ℚ
  piA : ℚ

/-- Modelled from the spec (section 3): the immutable input of one
simulation run. -/
structure SimParams where
  v0 : ℚ
  angle_deg : ℚ
  g : ℚ
  dt : ℚ
  y0 : ℚ
  mass : ℚ
  radius : ℚ
  wind_speed : ℚ
  wind_angle : ℚ
  air_density : ℚ
  altitude : ℚ
  temperature : ℚ
  target_x : ℚ
  target_radius : ℚ
  bonus_zones : List ℚ
  deriving DecidableEq

/-- Raw integrator state, before the per-sample speed is derived. -/
structure RawState where
  t : ℚ
  x : ℚ
  y : ℚ
  vx : ℚ
  vy : ℚ
  deriving DecidableEq

/-- Modelled from the spec (section 3): one integration step's record. -/
structure Sample where
  t : ℚ
  x : ℚ
  y : ℚ
  vx : ℚ
  vy : ℚ
  speed : ℚ
  deriving DecidableEq

/-- Modelled from the spec (section 3): summary statistics of one run. -/
structure Stats where
  range : ℚ
  max_height : ℚ
  time_of_flight : ℚ
  max_speed : ℚ
  impact_speed : ℚ
  impact_angle : ℚ
  deriving DecidableEq

/-- Modelled from the spec (section 7): the two error kinds of the core. -/
inductive SimError where
  | validation (message : String)
  | diverged (message : String)
  deriving DecidableEq

/-- Modelled from the spec (section 4.1): the documented drag-coefficient
constant (0.47, sphere). -/
def dragCd : ℚ := 47 / 100

/-- Modelled from the spec (section 4.1): the hard step cap that
guarantees termination. -/
def maxSteps : Nat := 10000

/-- Boolean check that a list of radii is ascending (used by validation;
the spec calls out malformed bonus-zone ordering as a `ValidationError`). -/
def ascChain : List ℚ → Bool
  | [] => true
  | [_] => true
  | a :: b :: rest => decide (a ≤ b) && ascChain (b :: rest)

/-- Modelled from the spec (sections 4.1 and 7): parameter validation,
performed before any integration step; returns the first failure message. -/
def validate (P : SimParams) : Option String :=
  if P.v0 ≤ 0 then some "v0 must be positive"
  else if P.dt ≤ 0 then some "dt must be positive"
  else if P.g ≤ 0 then some "g must be positive"
  else if P.mass ≤ 0 then some "mass must be positive"
  else if P.radius < 0 then some "radius must be nonnegative"
  else if P.air_density < 0 then some "air density must be nonnegative"
  else if P.y0 < 0 then some "y0 must be nonnegative"
  else if ascChain P.bonus_zones then none
  else some "bonus zones must be ascending"

/-- Modelled from the spec (section 4.1): one semi-implicit Euler step.
Gravity plus quadratic drag opposing the velocity relative to the wind;
the wind vector is decomposed from `wind_speed`/`wind_angle`; velocity is
updated from the net force first, then position from the new velocity. -/
def rawStep (prim : Prim) (P : SimParams) (s : RawState) : RawState :=
  let area := prim.piA * P.radius ^ 2
  let wx := P.wind_speed * prim.cosDeg P.wind_angle
  let wy := P.wind_speed * prim.sinDeg P.wind_angle
  let rvx := s.vx - wx
  let rvy := s.vy - wy
  let vrel := prim.sqrtQ (rvx ^ 2 + rvy ^ 2)
  let fdx := -(1 / 2) * P.air_density * dragCd * area * vrel * rvx
  let fdy := -(1 / 2) * P.air_density * dragCd * area * vrel * rvy
  let vx1 := s.vx + (fdx / P.mass) * P.dt
  let vy1 := s.vy + (-P.g + fdy / P.mass) * P.dt
  { t := s.t + P.dt, x := s.x + vx1 * P.dt, y := s.y + vy1 * P.dt,
    vx := vx1, vy := vy1 }

/-- Derive the recorded sample of a raw state (speed from the velocity
components). -/
def toSample (prim : Prim) (s : RawState) : Sample :=
  { t := s.t, x := s.x, y := s.y, vx := s.vx, vy := s.vy,
    speed := prim.sqrtQ (s.vx ^ 2 + s.vy ^ 2) }

/-- Modelled from the spec (section 4.1, Termination): the terminal sample,
linearly interpolated between the last raw step above ground and the first
raw step at or below ground so that its `y` is exactly 0; the division is
guarded when the two `y` values coincide. -/
def interpSample (prim : Prim) (dt : ℚ) (sp sc : RawState) : Sample :=
  let frac := if sp.y = sc.y then 0 else sp.y / (sp.y - sc.y)
  let vx := sp.vx + frac * (sc.vx - sp.vx)
  let vy := sp.vy + frac * (sc.vy - sp.vy)
  { t := sp.t + frac * dt,
    x := sp.x + frac * (sc.x - sp.x),
    y := 0,
    vx := vx, vy := vy,
    speed := prim.sqrtQ (vx ^ 2 + vy ^ 2) }

/-- Modelled from the spec (section 4.1): the integration loop.  Advances
by `rawStep`; stops at the first raw step whose `y ≤ 0`, recording the
interpolated terminal sample; exhausting the fuel is divergence. -/
def runLoop (prim : Prim) (P : SimParams) : Nat → RawState → Except SimError (List Sample)
  | 0, _ => .error (SimError.diverged "step cap exceeded before ground impact")
  | fuel + 1, s =>
      let s1 := rawStep prim P s
      if s1.y ≤ 0 then .ok [interpSample prim P.dt s s1]
      else (runLoop prim P fuel s1).map (fun rest => toSample prim s1 :: rest)

/-- Last element of a sample list. -/
def lastSample : List Sample → Option Sample
  | [] => none
  | [a] => some a
  | _ :: b :: rest => lastSample (b :: rest)

/-- Maximum of `f` over a sample list (0 for the empty list, which never
arises: trajectories are non-empty). -/
def maxOver (f : Sample → ℚ) : List Sample → ℚ
  | [] => 0
  | [a] => f a
  | a :: b :: rest => max (f a) (maxOver f (b :: rest))

/-- Modelled from the spec (section 4.1, Stats derivation). -/
def mkStats (prim : Prim) (samples : List Sample) : Stats :=
  let term := (lastSample samples).getD ⟨0, 0, 0, 0, 0, 0⟩
  { range := term.x,
    max_height := maxOver (fun s => s.y) samples,
    time_of_flight := term.t,
    max_speed := maxOver (fun s => s.speed) samples,
    impact_speed := term.speed,
    impact_angle := prim.atan2Deg (-term.vy) term.vx }

/-- Modelled from the spec (section 3, Invariants): the initial sample
`(0, 0, y0, v0 cos θ, v0 sin θ, v0)`. -/
def initState (prim : Prim) (P : SimParams) : RawState :=
  { t := 0, x := 0, y := P.y0,
    vx := P.v0 * prim.cosDeg P.angle_deg,
    vy := P.v0 * prim.sinDeg P.angle_deg }

/-- The first recorded sample; its speed is `v0` per the spec invariant. -/
def initSample (prim : Prim) (P : SimParams) : Sample :=
  let s := initState prim P
  { t := s.t, x := s.x, y := s.y, vx := s.vx, vy := s.vy, speed := P.v0 }

/-- Modelled from the spec (section 4.1, Contract): validate, then
integrate from the initial state until ground impact or the step cap. -/
def simulate (prim : Prim) (P : SimParams) : Except SimError (List Sample × Stats) :=
  match validate P with
  | some msg => .error (SimError.validation msg)
  | none =>
      match runLoop prim P maxSteps (initState prim P) with
      | .error e => .error e
      | .ok rest =>
          let samples := initSample prim P :: rest
          .ok (samples, mkStats prim samples)

/-- Whether a simulation outcome is a success. -/
def simOk (r : Except SimError (List Sample × Stats)) : Bool :=
  match r with
  | .ok _ => true
  | .error _ => false

/-- The recorded terminal sample of a successful outcome. -/
def terminalOf (r : Except SimError (List Sample × Stats)) : Option Sample :=
  match r with
  | .ok (samples, _) => lastSample samples
  | .error _ => none

/-- The reported range of a successful outcome. -/
def rangeOf (r : Except SimError (List Sample × Stats)) : Option ℚ :=
  match r with
  | .ok (_, stats) => some stats.range
  | .error _ => none

/-! ## Scoring evaluator -/

/-- Modelled from the spec (section 4.2): the target configuration the
evaluator consumes. -/
structure TargetConfig where
  center_x : ℚ
  target_radius : ℚ
  bonus_zones : List ℚ
  deriving DecidableEq

/-- Modelled from the spec (section 3): the scoring outcome.
`miss_distance` is defined exactly when the shot is a miss; the reference
behavior measures it from the target center. -/
structure ScoringR where
  hit : Bool
  score_multiplier : ℚ
  miss_distance : Option ℚ
  message : String
  deriving DecidableEq

/-- Index of the first (smallest, when the list is ascending) bonus-zone
radius containing distance `d`; boundaries are inclusive. -/
def zoneTier (d : ℚ) : List ℚ → Option Nat
  | [] => none
  | rZone :: rest => if d ≤ rZone then some 0 else (zoneTier d rest).map (· + 1)

/-- Modelled from the spec (section 4.2): the multiplier tier of the zone
at index `i` among `n` nested zones — the smallest zone has the highest
multiplier and the base `target_radius` tier below all zones is 1. -/
def zoneMultiplier (n i : Nat) : ℚ := ((n - i : Nat) : ℚ)

/-- Modelled from the spec (section 4.2): compute `d = |impact_x - center|`,
walk the bonus zones from smallest to largest taking the first zone with
`d ≤ radius` (inclusive boundary); otherwise a base hit when
`d ≤ target_radius`; otherwise a miss with multiplier 0 and the
center-to-impact miss distance. -/
def evaluate (impact_x : ℚ) (cfg : TargetConfig) : ScoringR :=
  let d := |impact_x - cfg.center_x|
  match zoneTier d cfg.bonus_zones with
  | some i =>
      { hit := true, score_multiplier := zoneMultiplier cfg.bonus_zones.length i,
        miss_distance := none, message := "Hit!" }
  | none =>
      if d ≤ cfg.target_radius then
        { hit := true, score_multiplier := 1, miss_distance := none,
          message := "Hit!" }
      else
        { hit := false, score_multiplier := 0, miss_distance := some d,
          message := "Miss!" }

/-! ## Frontend session layer (embedded from `frontend/app.js`) -/

/-- The trajectory statistics of a backend response as the frontend reads
them (`res.simulation.stats`). -/
structure RStats where
  max_height : ℚ
  range : ℚ
  time_of_flight : ℚ
  max_speed : ℚ
  impact_speed : ℚ
  impact_angle : ℚ
  deriving DecidableEq

/-- The scoring part of a backend response as the frontend reads it
(`res.result`). -/
structure RResult where
  hit : Bool
  score_multiplier : ℚ
  miss_distance : ℚ
  message : String
  deriving DecidableEq

/-- One successful backend response as consumed by `shoot`. -/
structure SimResponse where
  stats : RStats
  result : RResult
  deriving DecidableEq

/-- The raw control values read from the DOM: `none` models a missing or
empty input field (the `Number(el.value || default)` pattern). -/
structure Controls where
  v0 : Option ℚ
  angle_deg : Option ℚ
  g : Option ℚ
  dt : Option ℚ
  target_radius : Option ℚ
  mass : Option ℚ
  radius : Option ℚ
  wind_speed : Option ℚ
  wind_angle : Option ℚ
  air_density : Option ℚ
  altitude : Option ℚ
  temperature : Option ℚ
  deriving DecidableEq

/-- The JSON payload `shoot` posts to `/api/v2/simulate`. -/
structure Payload where
  v0 : ℚ
  angle_deg : ℚ
  g : ℚ
  dt : ℚ
  y0 : ℚ
  target_x : Option ℤ
  target_radius : ℚ
  bonus_zones : List ℚ
  mass : ℚ
  radius : ℚ
  wind_speed : ℚ
  wind_angle : ℚ
  air_density : ℚ
  altitude : ℚ
  temperature : ℚ
  deriving DecidableEq

/-- The module-level mutable state of `app.js` together with the DOM text
fields the session functions write (a display holding the dash
placeholder is modelled as `none`). -/
structure Session where
  targetX : Option ℤ
  attempts : Nat
  score : ℚ
  lastSim : Option SimResponse
  resultText : String
  resultColor : String
  maxHD : Option ℚ
  rangeD : Option ℚ
  tofD : Option ℚ
  maxSpeedD : Option ℚ
  impactSpeedD : Option ℚ
  impactAngleD : Option ℚ
  multD : Option ℚ
  deriving DecidableEq

/-- `const attemptsMax = 5` (`app.js` line 10). -/
def attemptsMax : Nat := 5

/-- `const BONUS_ZONES = [0.5, 1.0, 1.5]` (`app.js` line 5). -/
def bonusZones : List ℚ := [1 / 2, 1, 3 / 2]

/-- The game-over banner text (`app.js` line 304). -/
def gameOverText : String := "Game over. Reset to play again."

/-- The error/miss banner color. -/
def colorRed : String := "#ff6b6b"

/-- The hit banner color. -/
def colorGreen : String := "#50fa7b"

/-- The fallback miss banner when the response carries no message
(`Missed by ... m`, with the distance rendered in place of the number). -/
def missedByText (m : ℚ) : String := "Missed by " ++ toString m ++ " m"

/-- `newTarget` (`app.js` lines 87-92): place the target between 40% and
80% of the expected range, capped at 80, where `r` is the draw of
`Math.random()` in `[0, 1)`. -/
def newTargetX (expectedRange r : ℚ) : ℤ :=
  ⌊min expectedRange 80 * (4 / 10) + r * min expectedRange 80 * (4 / 10)⌋

/-- `newTarget` as a session operation: it only overwrites `targetX`. -/
def newTargetS (expectedRange r : ℚ) (st : Session) : Session :=
  { st with targetX := some (newTargetX expectedRange r) }

/-- `resetGame` (`app.js` lines 71-85): zero the attempt and score
counters, clear the result banner and the max-height/range/time-of-flight
displays, and draw a fresh target only on a full reset or when no target
exists yet. -/
def resetGame (full : Bool) (r : ℚ) (st : Session) : Session :=
  let st1 := { st with attempts := 0, score := 0, resultText := "—",
                       resultColor := "", maxHD := none, rangeD := none,
                       tofD := none }
  if full || st1.targetX.isNone then newTargetS 50 r st1 else st1

/-- The request payload built by `shoot` (`app.js` lines 313-336): every
missing control falls back to its default, `y0` is hard-coded to 0, and
the target fields come from the session state and the constant zone list. -/
def mkPayload (c : Controls) (tx : Option ℤ) : Payload :=
  { v0 := c.v0.getD 25,
    angle_deg := c.angle_deg.getD 45,
    g := c.g.getD (981 / 100),
    dt := c.dt.getD (1 / 50),
    y0 := 0,
    target_x := tx,
    target_radius := c.target_radius.getD (3 / 2),
    bonus_zones := bonusZones,
    mass := c.mass.getD (1 / 10),
    radius := c.radius.getD (1 / 50),
    wind_speed := c.wind_speed.getD 0,
    wind_angle := c.wind_angle.getD 0,
    air_density := c.air_density.getD (49 / 40),
    altitude := c.altitude.getD 0,
    temperature := c.temperature.getD 20 }

/-- `shoot` (`app.js` lines 302-384), as a function of the control values,
the outcome of the fetch (`Except` error for a rejected fetch or a
non-ok response), and the `Math.random()` draw used when the first
attempt re-places the target.  Returns the new session state and the
payload posted, `none` when no request was sent. -/
def shoot (c : Controls) (resp : Except String SimResponse) (r : ℚ)
    (st : Session) : Session × Option Payload :=
  if st.attempts ≥ attemptsMax then
    ({ st with resultText := gameOverText, resultColor := colorRed }, none)
  else
    let st1 := { st with attempts := st.attempts + 1, resultText := "—",
                         resultColor := "" }
    let payload := mkPayload c st.targetX
    match resp with
    | .error msg =>
        ({ st1 with resultText := "API error: " ++ msg,
                    resultColor := colorRed }, some payload)
    | .ok res =>
        let s := res.stats
        let st2 := { st1 with lastSim := some res,
                              maxHD := some s.max_height,
                              rangeD := some s.range,
                              tofD := some s.time_of_flight,
                              maxSpeedD := some s.max_speed,
                              impactSpeedD := some s.impact_speed,
                              impactAngleD := some s.impact_angle }
        let st3 := if st2.attempts = 1 then newTargetS s.range r st2 else st2
        let st4 :=
          if res.result.hit then
            { st3 with multD := some res.result.score_multiplier,
                       score := st3.score + 10 * res.result.score_multiplier,
                       resultText := res.result.message,
                       resultColor := colorGreen }
          else
            { st3 with resultText :=
                         if res.result.message = "" then
                           missedByText res.result.miss_distance
                         else res.result.message,
                       resultColor := colorRed,
                       multD := some 0 }
        (st4, some payload)

/-! ## Concrete instances used by counterexamples and witnesses -/

/-- Simple primitives for concrete runs: a straight-up launch direction
and degenerate square root (the claims under test do not depend on the
values these produce). -/
def prim0 : Prim :=
  { cosDeg := fun _ => 0, sinDeg := fun _ => 1, sqrtQ := fun _ => 0,
    atan2Deg := fun _ _ => 0, piA := 0 }

/-- A valid parameter set whose run hits the ground on the first step. -/
def P0 : SimParams :=
  { v0 := 1, angle_deg := 90, g := 1, dt := 4, y0 := 1, mass := 1,
    radius := 0, wind_speed := 0, wind_angle := 0, air_density := 0,
    altitude := 0, temperature := 20, target_x := 0, target_radius := 3 / 2,
    bonus_zones := [1 / 2, 1, 3 / 2] }

/-- `P0` with an invalid launch speed. -/
def Pbad : SimParams := { P0 with v0 := 0 }

/-- The reference target configuration (`BONUS_ZONES` with the default
primary radius). -/
def cfg0 : TargetConfig :=
  { center_x := 0, target_radius := 3 / 2, bonus_zones := [1 / 2, 1, 3 / 2] }

/-- All control fields missing (every default applies). -/
def controls0 : Controls :=
  { v0 := none, angle_deg := none, g := none, dt := none,
    target_radius := none, mass := none, radius := none, wind_speed := none,
    wind_angle := none, air_density := none, altitude := none,
    temperature := none }

/-- A fresh session right after the initial `resetGame(true)`. -/
def session0 : Session :=
  { targetX := some 30, attempts := 0, score := 0, lastSim := none,
    resultText := "—", resultColor := "", maxHD := none, rangeD := none,
    tofD := none, maxSpeedD := none, impactSpeedD := none,
    impactAngleD := none, multD := none }

/-- A session that has used up all its attempts. -/
def session5 : Session := { session0 with attempts := 5 }

/-- A session that has displayed trajectory stats from an earlier shot. -/
def sessionC : Session :=
  { session0 with targetX := some 3, maxSpeedD := some 5 }

/-- A successful response scoring a hit in the middle bonus zone. -/
def resHit : SimResponse :=
  { stats := { max_height := 5, range := 30, time_of_flight := 2,
               max_speed := 20, impact_speed := 15, impact_angle := -45 },
    result := { hit := true, score_multiplier := 2, miss_distance := 0,
                message := "Hit!" } }

/-! ## Helper lemmas -/

theorem lastSample_cons (a : Sample) (l : List Sample) (h : l ≠ []) :
    lastSample (a :: l) = lastSample l := by
  cases l with
  | nil => exact absurd rfl h
  | cons b t => rfl

theorem runLoop_ok (prim : Prim) (P : SimParams) :
    ∀ fuel (s : RawState) (rest : List Sample), runLoop prim P fuel s = .ok rest →
      rest ≠ [] ∧ ∃ sp sc : RawState, sc = rawStep prim P sp ∧ sc.y ≤ 0 ∧
        lastSample rest = some (interpSample prim P.dt sp sc) := by
  intro fuel
  induction fuel with
  | zero => intro s rest h; simp [runLoop] at h
  | succ n ih =>
      intro s rest h
      simp only [runLoop] at h
      by_cases hy : (rawStep prim P s).y ≤ 0
      · rw [if_pos hy] at h
        cases h
        refine ⟨by simp, s, rawStep prim P s, rfl, hy, ?_⟩
        simp [lastSample]
      · rw [if_neg hy] at h
        cases hrec : runLoop prim P n (rawStep prim P s) with
        | error e => rw [hrec] at h; simp [Except.map] at h
        | ok rest1 =>
            rw [hrec] at h
            simp only [Except.map] at h
            cases h
            obtain ⟨hne, sp, sc, hsc, hsy, hlast⟩ := ih (rawStep prim P s) rest1 hrec
            exact ⟨by simp, sp, sc, hsc, hsy,
              by rw [lastSample_cons _ _ hne]; exact hlast⟩

theorem runLoop_stop (prim : Prim) (P : SimParams) (fuel : Nat) (s : RawState)
    (h : (rawStep prim P s).y ≤ 0) :
    runLoop prim P (fuel + 1) s = .ok [interpSample prim P.dt s (rawStep prim P s)] := by
  simp [runLoop, h]

theorem zoneTier_of_first (d : ℚ) :
    ∀ (zs : List ℚ) (i : Nat), i < zs.length → d ≤ zs.getD i 0 →
      (∀ j, j < i → ¬ d ≤ zs.getD j 0) → zoneTier d zs = some i := by
  intro zs
  induction zs with
  | nil => intro i hi; simp at hi
  | cons a t ih =>
      intro i hi hd hmin
      cases i with
      | zero =>
          simp only [List.getD_cons_zero] at hd
          simp [zoneTier, hd]
      | succ n =>
          have ha : ¬ d ≤ a := by
            have := hmin 0 (Nat.succ_pos n)
            simpa using this
          have ht : zoneTier d t = some n := by
            refine ih n (by simpa using hi) (by simpa using hd) ?_
            intro j hj
            have := hmin (j + 1) (Nat.succ_lt_succ hj)
            simpa using this
          simp [zoneTier, ha, ht]

theorem zoneTier_none (d : ℚ) :
    ∀ zs : List ℚ, (∀ r ∈ zs, ¬ d ≤ r) → zoneTier d zs = none := by
  intro zs
  induction zs with
  | nil => intro _; rfl
  | cons a t ih =>
      intro h
      have ha : ¬ d ≤ a := h a (by simp)
      have ht : zoneTier d t = none := ih (fun r hr => h r (by simp [hr]))
      simp [zoneTier, ha, ht]

/-! ## Claims about the core (spec-modelled) -/

/-- Claim C1: every simulation run that terminates by ground impact records
a terminal sample linearly interpolated between the last two raw
integration steps, so that its `y` is exactly 0 and the reported range is
`x_prev + (x_curr - x_prev) * (y_prev / (y_prev - y_curr))`, with the
division guarded when the two `y` values coincide. -/
theorem simulate_terminal_interp (prim : Prim) (P : SimParams)
    (h : simOk (simulate prim P) = true) :
    ∃ sp sc : RawState, sc = rawStep prim P sp ∧ sc.y ≤ 0 ∧
      terminalOf (simulate prim P) = some (interpSample prim P.dt sp sc) ∧
      (interpSample prim P.dt sp sc).y = 0 ∧
      rangeOf (simulate prim P) = some ((interpSample prim P.dt sp sc).x) ∧
      (sp.y ≠ sc.y →
        rangeOf (simulate prim P) =
          some (sp.x + (sc.x - sp.x) * (sp.y / (sp.y - sc.y)))) := by
  cases hv : validate P with
  | some msg => simp [simOk, simulate, hv] at h
  | none =>
      cases hr : runLoop prim P maxSteps (initState prim P) with
      | error e => simp [simOk, simulate, hv, hr] at h
      | ok rest =>
          obtain ⟨hne, sp, sc, hsc, hsy, hlast⟩ := runLoop_ok prim P maxSteps _ rest hr
          have hsim : simulate prim P =
              .ok (initSample prim P :: rest, mkStats prim (initSample prim P :: rest)) := by
            simp [simulate, hv, hr]
          have hterm : lastSample (initSample prim P :: rest) =
              some (interpSample prim P.dt sp sc) := by
            rw [lastSample_cons _ _ hne]; exact hlast
          refine ⟨sp, sc, hsc, hsy, ?_, rfl, ?_, ?_⟩
          · rw [hsim]; simpa [terminalOf] using hterm
          · rw [hsim]
            simp only [rangeOf, mkStats, hterm, Option.getD_some]
          · intro hne2
            rw [hsim]
            simp only [rangeOf, mkStats, hterm, Option.getD_some,
              Option.some.injEq]
            simp only [interpSample, if_neg hne2]
            ring

/-- Claim C2: `evaluate` computes `d = |impact_x - center_x|`, awards the
multiplier of the smallest bonus zone containing `d` (boundaries
inclusive), falls back to a base hit with multiplier 1 when `d` is within
the target radius, and otherwise reports a miss with multiplier 0 and a
defined miss distance. -/
theorem evaluate_tiers (x : ℚ) (cfg : TargetConfig)
    (_hasc : ascChain cfg.bonus_zones = true)
    (hnest : ∀ r ∈ cfg.bonus_zones, r ≤ cfg.target_radius) :
    (∀ i, i < cfg.bonus_zones.length →
        |x - cfg.center_x| ≤ cfg.bonus_zones.getD i 0 →
        (∀ j, j < i → ¬ |x - cfg.center_x| ≤ cfg.bonus_zones.getD j 0) →
        (evaluate x cfg).hit = true ∧
        (evaluate x cfg).score_multiplier =
          zoneMultiplier cfg.bonus_zones.length i) ∧
    ((∀ r ∈ cfg.bonus_zones, ¬ |x - cfg.center_x| ≤ r) →
        |x - cfg.center_x| ≤ cfg.target_radius →
        (evaluate x cfg).hit = true ∧ (evaluate x cfg).score_multiplier = 1 ∧
        (evaluate x cfg).miss_distance = none) ∧
    (cfg.target_radius < |x - cfg.center_x| →
        (evaluate x cfg).hit = false ∧ (evaluate x cfg).score_multiplier = 0 ∧
        (evaluate x cfg).miss_distance = some |x - cfg.center_x|) := by
  refine ⟨?_, ?_, ?_⟩
  · intro i hi hd hmin
    have ht := zoneTier_of_first |x - cfg.center_x| cfg.bonus_zones i hi hd hmin
    simp [evaluate, ht]
  · intro hnone hin
    have ht := zoneTier_none |x - cfg.center_x| cfg.bonus_zones hnone
    simp [evaluate, ht, hin]
  · intro hout
    have hnone : ∀ r ∈ cfg.bonus_zones, ¬ |x - cfg.center_x| ≤ r := by
      intro r hr hle
      exact absurd (le_trans hle (hnest r hr)) (not_le.mpr hout)
    have ht := zoneTier_none |x - cfg.center_x| cfg.bonus_zones hnone
    simp [evaluate, ht, not_le.mpr hout]

/-- Claim C3: a parameter set with `v0 ≤ 0`, `dt ≤ 0`, `g ≤ 0`, or a
negative mass, radius, or air density is rejected with a
`ValidationError` before integration and yields no trajectory samples. -/
theorem simulate_rejects_invalid (prim : Prim) (P : SimParams)
    (h : P.v0 ≤ 0 ∨ P.dt ≤ 0 ∨ P.g ≤ 0 ∨ P.mass < 0 ∨ P.radius < 0 ∨
      P.air_density < 0) :
    (∃ msg, simulate prim P = .error (SimError.validation msg)) ∧
      ∀ out, simulate prim P ≠ .ok out := by
  have hv : ∃ msg, validate P = some msg := by
    unfold validate
    split_ifs with h1 h2 h3 h4 h5 h6 h7 h8
    any_goals exact ⟨_, rfl⟩
    rcases h with h | h | h | h | h | h
    · exact absurd h h1
    · exact absurd h h2
    · exact absurd h h3
    · exact absurd (le_of_lt h) h4
    · exact absurd h h5
    · exact absurd h h6
  obtain ⟨msg, hm⟩ := hv
  have hsim : simulate prim P = .error (SimError.validation msg) := by
    simp [simulate, hm]
  exact ⟨⟨msg, hsim⟩, fun out hout => by rw [hsim] at hout; simp at hout⟩

/-- Claim C4: the core computation is deterministic — two invocations of
`simulate` on identical parameters produce identical results. -/
theorem simulate_deterministic (prim : Prim) (P : SimParams)
    (out1 out2 : Except SimError (List Sample × Stats))
    (h1 : simulate prim P = out1) (h2 : simulate prim P = out2) :
    out1 = out2 :=
  h1.symm.trans h2

/-! ## Claims about the session layer (`frontend/app.js`) -/

/-- Counterexample to claim C5 as stated: in the fresh session a failed
fetch still advances the attempts counter from 0 to 1, because `shoot`
increments `attempts` before issuing the request and does not roll it
back on error (`app.js` lines 307, 347-350). -/
theorem shoot_error_attempt_cex :
    (shoot controls0 (Except.error "boom") 0 session0).1.attempts = 1 ∧
    session0.attempts = 0 := by
  constructor
  · norm_num [shoot, session0, controls0, attemptsMax]
  · rfl

/-- Claim C5 (amended): when the simulation request fails, `shoot` leaves
the score and the target unchanged, but the attempts counter is
incremented by exactly 1 — a failed simulation does consume an attempt. -/
theorem shoot_error_state (c : Controls) (msg : String) (r : ℚ) (st : Session)
    (h : st.attempts < attemptsMax) :
    (shoot c (Except.error msg) r st).1.score = st.score ∧
    (shoot c (Except.error msg) r st).1.attempts = st.attempts + 1 ∧
    (shoot c (Except.error msg) r st).1.targetX = st.targetX ∧
    (shoot c (Except.error msg) r st).1.resultText = "API error: " ++ msg := by
  have hn : ¬ st.attempts ≥ attemptsMax := by omega
  simp [shoot, hn]

/-- Claim C6: on a successful response, a hit adds `10 * score_multiplier`
to the score and displays `score_multiplier`; a miss leaves the score
unchanged and displays 0. -/
theorem shoot_scoring (c : Controls) (res : SimResponse) (r : ℚ) (st : Session)
    (h : st.attempts < attemptsMax) :
    (res.result.hit = true →
        (shoot c (Except.ok res) r st).1.score =
          st.score + 10 * res.result.score_multiplier ∧
        (shoot c (Except.ok res) r st).1.multD =
          some res.result.score_multiplier) ∧
    (res.result.hit = false →
        (shoot c (Except.ok res) r st).1.score = st.score ∧
        (shoot c (Except.ok res) r st).1.multD = some 0) := by
  have hn : ¬ st.attempts ≥ attemptsMax := by omega
  by_cases h1 : st.attempts + 1 = 1 <;>
    constructor <;> intro hh <;>
      simp [shoot, hn, h1, hh, newTargetS]

/-- Claim C7: whenever `shoot` sends a request, the payload fixes `y0 = 0`
and substitutes the documented default for every missing control value. -/
theorem shoot_payload_defaults (c : Controls) (resp : Except String SimResponse)
    (r : ℚ) (st : Session) (h : st.attempts < attemptsMax) :
    (shoot c resp r st).2 = some (mkPayload c st.targetX) ∧
    (mkPayload c st.targetX).y0 = 0 ∧
    (c.v0 = none → (mkPayload c st.targetX).v0 = 25) ∧
    (c.angle_deg = none → (mkPayload c st.targetX).angle_deg = 45) ∧
    (c.g = none → (mkPayload c st.targetX).g = 981 / 100) ∧
    (c.dt = none → (mkPayload c st.targetX).dt = 1 / 50) ∧
    (c.target_radius = none → (mkPayload c st.targetX).target_radius = 3 / 2) ∧
    (c.mass = none → (mkPayload c st.targetX).mass = 1 / 10) ∧
    (c.radius = none → (mkPayload c st.targetX).radius = 1 / 50) ∧
    (c.wind_speed = none → (mkPayload c st.targetX).wind_speed = 0) ∧
    (c.wind_angle = none → (mkPayload c st.targetX).wind_angle = 0) ∧
    (c.air_density = none → (mkPayload c st.targetX).air_density = 49 / 40) ∧
    (c.altitude = none → (mkPayload c st.targetX).altitude = 0) ∧
    (c.temperature = none → (mkPayload c st.targetX).temperature = 20) := by
  have hn : ¬ st.attempts ≥ attemptsMax := by omega
  refine ⟨?_, rfl, ?_, ?_, ?_, ?_, ?_, ?_, ?_, ?_, ?_, ?_, ?_, ?_⟩
  · cases resp with
    | error msg => simp [shoot, hn]
    | ok res =>
        by_cases h1 : st.attempts + 1 = 1 <;>
          cases hh : res.result.hit <;>
            simp [shoot, hn, h1, hh, newTargetS]
  all_goals intro hx; simp [mkPayload, hx]

/-- Claim C8: the session invariant `attempts ≤ attemptsMax` (= 5) is
preserved by every operation: with `attempts ≥ 5`, `shoot` only paints the
game-over banner, sends no request, and leaves `attempts`, `score` and
`targetX` unchanged; otherwise it increments `attempts` by exactly 1;
`resetGame` zeroes the counter and `newTarget` never touches it. -/
theorem attempts_invariant (c : Controls) (resp : Except String SimResponse)
    (r r1 r2 er : ℚ) (full : Bool) (st : Session) :
    (st.attempts ≥ attemptsMax →
        (shoot c resp r st).1 =
          { st with resultText := gameOverText, resultColor := colorRed } ∧
        (shoot c resp r st).2 = none) ∧
    (st.attempts < attemptsMax →
        (shoot c resp r st).1.attempts = st.attempts + 1) ∧
    (st.attempts ≤ attemptsMax →
        (shoot c resp r st).1.attempts ≤ attemptsMax) ∧
    (resetGame full r1 st).attempts ≤ attemptsMax ∧
    (newTargetS er r2 st).attempts = st.attempts := by
  have hsucc : st.attempts < attemptsMax →
      (shoot c resp r st).1.attempts = st.attempts + 1 := by
    intro h
    have hn : ¬ st.attempts ≥ attemptsMax := by omega
    cases resp with
    | error msg => simp [shoot, hn]
    | ok res =>
        by_cases h1 : st.attempts + 1 = 1 <;>
          cases hh : res.result.hit <;>
            simp [shoot, hn, h1, hh, newTargetS]
  refine ⟨?_, hsucc, ?_, ?_, rfl⟩
  · intro hge
    constructor <;> simp [shoot, hge]
  · intro hle
    by_cases hge : st.attempts ≥ attemptsMax
    · have h2 : (shoot c resp r st).1 =
          { st with resultText := gameOverText, resultColor := colorRed } := by
        simp [shoot, hge]
      rw [h2]
      exact hle
    · have h1 := hsucc (by omega)
      omega
  · simp only [resetGame]
    split <;> simp [newTargetS, attemptsMax]

/-- Counterexample to claim C9 as stated: the bounds fail for a negative
expected range.  With `expectedRange = -10` and draw `9/10` the code
places the target at -8, which is not greater than `0.4 * u - 1 = -5`. -/
theorem newTarget_cex :
    newTargetX (-10) (9 / 10) = -8 ∧
    ¬ ((4 / 10 : ℚ) * min (-10 : ℚ) 80 - 1 < ((newTargetX (-10) (9 / 10) : ℤ) : ℚ)) := by
  have hmin : min (-10 : ℚ) 80 = -10 := by norm_num [min_def]
  have h8 : newTargetX (-10) (9 / 10) = -8 := by
    rw [newTargetX, hmin]
    norm_num
  refine ⟨h8, ?_⟩
  rw [h8, hmin]
  norm_num

/-- Claim C9 (amended): for every nonnegative `expectedRange` and draw
`r ∈ [0, 1)`, `newTarget` stores `floor(0.4 u + r (0.4 u))` with
`u = min expectedRange 80`; the stored value is an integer at most
`0.8 u`, strictly greater than `0.4 u - 1`, and never above 64. -/
theorem newTarget_bounds (er r : ℚ) (st : Session)
    (her : 0 ≤ er) (hr0 : 0 ≤ r) (hr1 : r < 1) :
    (newTargetS er r st).targetX = some (newTargetX er r) ∧
    newTargetX er r = ⌊(4 / 10 : ℚ) * min er 80 + r * ((4 / 10) * min er 80)⌋ ∧
    ((newTargetX er r : ℚ) ≤ (8 / 10) * min er 80) ∧
    ((4 / 10 : ℚ) * min er 80 - 1 < (newTargetX er r : ℚ)) ∧
    newTargetX er r ≤ 64 := by
  have hu0 : 0 ≤ min er 80 := le_min her (by norm_num)
  have hu80 : min er 80 ≤ 80 := min_le_right _ _
  have harg : min er 80 * (4 / 10) + r * min er 80 * (4 / 10) =
      (4 / 10 : ℚ) * min er 80 + r * ((4 / 10) * min er 80) := by ring
  have hlo : (4 / 10 : ℚ) * min er 80 ≤
      min er 80 * (4 / 10) + r * min er 80 * (4 / 10) := by
    nlinarith [mul_nonneg (mul_nonneg hr0 hu0) (by norm_num : (0 : ℚ) ≤ 4 / 10)]
  have hhi : min er 80 * (4 / 10) + r * min er 80 * (4 / 10) ≤
      (8 / 10) * min er 80 := by
    nlinarith [mul_nonneg hu0 (sub_nonneg.mpr hr1.le)]
  refine ⟨rfl, by rw [newTargetX, harg], ?_, ?_, ?_⟩
  · calc ((newTargetX er r : ℤ) : ℚ) ≤
        min er 80 * (4 / 10) + r * min er 80 * (4 / 10) := Int.floor_le _
      _ ≤ (8 / 10) * min er 80 := hhi
  · have h1 := Int.sub_one_lt_floor
      (min er 80 * (4 / 10) + r * min er 80 * (4 / 10))
    rw [newTargetX]
    linarith
  · have hz64 : min er 80 * (4 / 10) + r * min er 80 * (4 / 10) ≤ 64 := by
      nlinarith
    calc newTargetX er r ≤ ⌊(64 : ℚ)⌋ := Int.floor_le_floor hz64
      _ = 64 := by norm_num

/-- Counterexample to claim C10 as stated: `resetGame(false)` does not
clear all the stat displays — the max-speed display keeps its value
(`app.js` lines 71-85 reset only the max-height, range, and
time-of-flight fields). -/
theorem resetGame_cex :
    sessionC.targetX ≠ none ∧ sessionC.maxSpeedD = some 5 ∧
    (resetGame false 0 sessionC).maxSpeedD = some 5 := by
  refine ⟨by simp [sessionC, session0], rfl, ?_⟩
  simp [resetGame, sessionC, session0, newTargetS]

/-- Claim C10 (amended): when a target exists, `resetGame(false)` zeroes
the attempt and score counters and clears the result banner together with
the max-height, range, and time-of-flight displays, leaving everything
else — in particular `targetX` and the max-speed, impact-speed,
impact-angle and multiplier displays — unchanged; only `resetGame(true)`
or a call without an existing target draws a new target position. -/
theorem resetGame_frame (st : Session) (r : ℚ) :
    (st.targetX ≠ none →
        resetGame false r st =
          { st with attempts := 0, score := 0, resultText := "—",
                    resultColor := "", maxHD := none, rangeD := none,
                    tofD := none }) ∧
    (resetGame true r st).targetX = some (newTargetX 50 r) ∧
    (st.targetX = none →
        (resetGame false r st).targetX = some (newTargetX 50 r)) := by
  refine ⟨?_, ?_, ?_⟩
  · intro h
    simp [resetGame, Option.isNone_iff_eq_none, h]
  · simp [resetGame, newTargetS]
  · intro h
    simp [resetGame, h, newTargetS]

/-! ## Witnesses -/

/-- Concrete run of the C1 theorem: `P0` terminates on its first raw step
and the terminal sample is the interpolated one. -/
theorem simulate_terminal_interp_wit :
    ∃ sp sc : RawState, sc = rawStep prim0 P0 sp ∧ sc.y ≤ 0 ∧
      terminalOf (simulate prim0 P0) = some (interpSample prim0 P0.dt sp sc) ∧
      (interpSample prim0 P0.dt sp sc).y = 0 ∧
      rangeOf (simulate prim0 P0) = some ((interpSample prim0 P0.dt sp sc).x) ∧
      (sp.y ≠ sc.y →
        rangeOf (simulate prim0 P0) =
          some (sp.x + (sc.x - sp.x) * (sp.y / (sp.y - sc.y)))) := by
  apply simulate_terminal_interp prim0 P0
  have hstep : (rawStep prim0 P0 (initState prim0 P0)).y ≤ 0 := by
    norm_num [rawStep, initState, prim0, P0, dragCd]
  have hv : validate P0 = none := by
    norm_num [validate, P0, ascChain]
  have hrun : runLoop prim0 P0 maxSteps (initState prim0 P0) =
      .ok [interpSample prim0 P0.dt (initState prim0 P0)
            (rawStep prim0 P0 (initState prim0 P0))] := by
    rw [show maxSteps = 9999 + 1 from rfl]
    exact runLoop_stop prim0 P0 9999 (initState prim0 P0) hstep
  simp [simOk, simulate, hv, hrun]

/-- Concrete run of the C2 theorem: a shot at distance 1 lands exactly on
the middle zone boundary and scores that zone (boundary inclusive). -/
theorem evaluate_tiers_wit :
    (evaluate 1 cfg0).hit = true ∧
    (evaluate 1 cfg0).score_multiplier =
      zoneMultiplier cfg0.bonus_zones.length 1 := by
  have hasc : ascChain cfg0.bonus_zones = true := by
    norm_num [ascChain, cfg0]
  have hnest : ∀ r ∈ cfg0.bonus_zones, r ≤ cfg0.target_radius := by
    intro r hr
    simp [cfg0] at hr
    rcases hr with h | h | h <;> rw [h] <;> norm_num [cfg0]
  refine (evaluate_tiers 1 cfg0 hasc hnest).1 1 ?_ ?_ ?_
  · simp [cfg0]
  · norm_num [cfg0]
  · intro j hj
    interval_cases j
    norm_num [cfg0]

/-- Concrete run of the C3 theorem: `v0 = 0` is rejected. -/
theorem simulate_rejects_invalid_wit :
    (∃ msg, simulate prim0 Pbad = .error (SimError.validation msg)) ∧
      ∀ out, simulate prim0 Pbad ≠ .ok out :=
  simulate_rejects_invalid prim0 Pbad (Or.inl (by norm_num [Pbad, P0]))

/-- Concrete run of the C4 theorem. -/
theorem simulate_deterministic_wit : simulate prim0 P0 = simulate prim0 P0 :=
  simulate_deterministic prim0 P0 (simulate prim0 P0) (simulate prim0 P0) rfl rfl

/-- Concrete run of the amended C5 theorem. -/
theorem shoot_error_state_wit :
    (shoot controls0 (Except.error "boom") 0 session0).1.score = session0.score ∧
    (shoot controls0 (Except.error "boom") 0 session0).1.attempts =
      session0.attempts + 1 ∧
    (shoot controls0 (Except.error "boom") 0 session0).1.targetX =
      session0.targetX ∧
    (shoot controls0 (Except.error "boom") 0 session0).1.resultText =
      "API error: " ++ "boom" :=
  shoot_error_state controls0 "boom" 0 session0 (by norm_num [session0, attemptsMax])

/-- Concrete run of the C6 theorem: a hit with multiplier 2 adds 20. -/
theorem shoot_scoring_wit :
    (shoot controls0 (Except.ok resHit) 0 session0).1.score =
      session0.score + 10 * resHit.result.score_multiplier ∧
    (shoot controls0 (Except.ok resHit) 0 session0).1.multD =
      some resHit.result.score_multiplier :=
  (shoot_scoring controls0 resHit 0 session0
    (by norm_num [session0, attemptsMax])).1 rfl

/-- Concrete run of the C7 theorem with every control missing. -/
theorem shoot_payload_defaults_wit :
    (shoot controls0 (Except.error "x") 0 session0).2 =
      some (mkPayload controls0 session0.targetX) ∧
    (mkPayload controls0 session0.targetX).y0 = 0 ∧
    (controls0.v0 = none → (mkPayload controls0 session0.targetX).v0 = 25) ∧
    (controls0.angle_deg = none →
      (mkPayload controls0 session0.targetX).angle_deg = 45) ∧
    (controls0.g = none → (mkPayload controls0 session0.targetX).g = 981 / 100) ∧
    (controls0.dt = none → (mkPayload controls0 session0.targetX).dt = 1 / 50) ∧
    (controls0.target_radius = none →
      (mkPayload controls0 session0.targetX).target_radius = 3 / 2) ∧
    (controls0.mass = none → (mkPayload controls0 session0.targetX).mass = 1 / 10) ∧
    (controls0.radius = none →
      (mkPayload controls0 session0.targetX).radius = 1 / 50) ∧
    (controls0.wind_speed = none →
      (mkPayload controls0 session0.targetX).wind_speed = 0) ∧
    (controls0.wind_angle = none →
      (mkPayload controls0 session0.targetX).wind_angle = 0) ∧
    (controls0.air_density = none →
      (mkPayload controls0 session0.targetX).air_density = 49 / 40) ∧
    (controls0.altitude = none →
      (mkPayload controls0 session0.targetX).altitude = 0) ∧
    (controls0.temperature = none →
      (mkPayload controls0 session0.targetX).temperature = 20) :=
  shoot_payload_defaults controls0 (Except.error "x") 0 session0
    (by norm_num [session0, attemptsMax])

/-- Concrete run of the C8 theorem: a full session blocks the request, a
fresh one consumes exactly one attempt. -/
theorem attempts_invariant_wit :
    (shoot controls0 (Except.error "e") 0 session5).2 = none ∧
    (shoot controls0 (Except.error "e") 0 session0).1.attempts =
      session0.attempts + 1 :=
  ⟨((attempts_invariant controls0 (Except.error "e") 0 0 0 0 false session5).1
      (by norm_num [session5, session0, attemptsMax])).2,
   (attempts_invariant controls0 (Except.error "e") 0 0 0 0 false session0).2.1
      (by norm_num [session0, attemptsMax])⟩

/-- Concrete run of the amended C9 theorem at `expectedRange = 50`,
`r = 1/2`. -/
theorem newTarget_bounds_wit :
    (newTargetS 50 (1 / 2) session0).targetX = some (newTargetX 50 (1 / 2)) ∧
    newTargetX 50 (1 / 2) =
      ⌊(4 / 10 : ℚ) * min (50 : ℚ) 80 + (1 / 2) * ((4 / 10) * min (50 : ℚ) 80)⌋ ∧
    ((newTargetX 50 (1 / 2) : ℚ) ≤ (8 / 10) * min (50 : ℚ) 80) ∧
    ((4 / 10 : ℚ) * min (50 : ℚ) 80 - 1 < (newTargetX 50 (1 / 2) : ℚ)) ∧
    newTargetX 50 (1 / 2) ≤ 64 :=
  newTarget_bounds 50 (1 / 2) session0 (by norm_num) (by norm_num) (by norm_num)

/-- Concrete run of the amended C10 theorem. -/
theorem resetGame_frame_wit :
    resetGame false 0 sessionC =
      { sessionC with attempts := 0, score := 0, resultText := "—",
                      resultColor := "", maxHD := none, rangeD := none,
                      tofD := none } ∧
    (resetGame true 0 sessionC).targetX = some (newTargetX 50 0) := by
  have h := resetGame_frame sessionC 0
  exact ⟨h.1 (by simp [sessionC, session0]), h.2.1⟩

end Projectile
